import Mathlib

/-!
Shallow embedding of the payments ledger engine from
src/src/account_manager.rs (struct AccountManager and its methods).

Modelling choices:
* rust_decimal Decimal amounts are modelled as exact rationals (ℚ);
  the engine only adds, subtracts and negates amounts, all exact in Decimal.
* HashMap u16 -> ClientAccount and HashMap u32 -> Transaction are modelled
  as functions Nat -> Option _, updated pointwise.
* Each Rust method mutates in place and may return early with an error.
  We model a method as a function returning the state as mutated when the
  method returned, together with an optional error: a result (m, some e)
  means the method returned Err(e) with the ledger in state m, and
  (m, none) means Ok(()) with the ledger in state m.  Early error returns
  yield the state exactly as it was at the return point, so partial
  mutation before an error would be visible in the model.
* The Rust error values are strings; the spec names them as an error
  taxonomy, which we use as the error enum, one constructor per distinct
  string produced by the source.
-/

/-- Error taxonomy of the engine: one constructor per distinct error string
returned by account_manager.rs. -/
inductive TxError where
  | amountRequired
  | duplicateTransaction
  | accountNotFound
  | transactionNotFound
  | onlyDepositsDisputable
  | notDisputed
  | unknownTransactionType
  deriving DecidableEq, Repr

/-- Mirrors struct ClientAccount (fields as used in account_manager.rs). -/
structure ClientAccount where
  available : ℚ
  client : Nat
  held : ℚ
  locked : Bool
  total : ℚ
  deriving DecidableEq, Repr

/-- Mirrors struct Transaction (fields as used in account_manager.rs). -/
structure Transaction where
  type : String
  client : Nat
  tx : Nat
  amount : Option ℚ
  is_disputed : Bool
  deriving DecidableEq, Repr

/-- Mirrors struct AccountManager: accounts keyed by client id,
transactions keyed by transaction id. -/
structure AccountManager where
  accounts : Nat → Option ClientAccount
  transactions : Nat → Option Transaction

/-- AccountManager::new(). -/
def AccountManager.new : AccountManager :=
  { accounts := fun _ => none, transactions := fun _ => none }

/-- Pointwise update of the accounts map (HashMap insert). -/
def setAcc (f : Nat → Option ClientAccount) (k : Nat) (v : ClientAccount) :
    Nat → Option ClientAccount :=
  fun k' => if k' = k then some v else f k'

/-- Pointwise update of the transactions map (HashMap insert). -/
def setTx (f : Nat → Option Transaction) (k : Nat) (v : Transaction) :
    Nat → Option Transaction :=
  fun k' => if k' = k then some v else f k'

/-- Result of one method call: the ledger state at the point where the
method returned, plus the error if the method returned Err. -/
abbrev ProcResult := AccountManager × Option TxError

/-- Mirrors AccountManager::process_deposit.  Note the source recomputes
total as available MINUS held (line 54). -/
def process_deposit (m : AccountManager) (tx : Transaction) : ProcResult :=
  match tx.amount with
  | none => (m, some .amountRequired)
  | some amount =>
    match m.transactions tx.tx with
    | some _ => (m, some .duplicateTransaction)
    | none =>
      let m1 : AccountManager :=
        { m with transactions := setTx m.transactions tx.tx tx }
      match m1.accounts tx.client with
      | some account =>
        let account1 := { account with available := account.available + amount }
        let account2 := { account1 with total := account1.available - account1.held }
        ({ m1 with accounts := setAcc m1.accounts tx.client account2 }, none)
      | none =>
        let new_account : ClientAccount :=
          { available := amount, client := tx.client, held := 0,
            locked := false, total := amount }
        ({ m1 with accounts := setAcc m1.accounts tx.client new_account }, none)

/-- Mirrors AccountManager::process_withdraw.  Total is again recomputed
as available minus held (line 85). -/
def process_withdraw (m : AccountManager) (tx : Transaction) : ProcResult :=
  match tx.amount with
  | none => (m, some .amountRequired)
  | some amount =>
    match m.transactions tx.tx with
    | some _ => (m, some .duplicateTransaction)
    | none =>
      let m1 : AccountManager :=
        { m with transactions := setTx m.transactions tx.tx tx }
      match m1.accounts tx.client with
      | some account =>
        let account1 := { account with available := account.available - amount }
        let account2 := { account1 with total := account1.available - account1.held }
        ({ m1 with accounts := setAcc m1.accounts tx.client account2 }, none)
      | none =>
        let new_account : ClientAccount :=
          { available := -amount, client := tx.client, held := 0,
            locked := false, total := -amount }
        ({ m1 with accounts := setAcc m1.accounts tx.client new_account }, none)

/-- Mirrors AccountManager::process_dispute.  The account looked up (and
mutated) is the one keyed by the client field of the incoming record; the
stored transaction supplies only the amount.  Total is not recomputed. -/
def process_dispute (m : AccountManager) (tx : Transaction) : ProcResult :=
  match m.accounts tx.client with
  | none => (m, some .accountNotFound)
  | some account =>
    match m.transactions tx.tx with
    | none => (m, some .transactionNotFound)
    | some disputed_tx =>
      if disputed_tx.type ≠ "deposit" then (m, some .onlyDepositsDisputable)
      else
        match disputed_tx.amount with
        | none => (m, some .amountRequired)
        | some amount =>
          let account1 := { account with
            available := account.available - amount,
            held := account.held + amount }
          let disputed_tx1 := { disputed_tx with is_disputed := true }
          ({ accounts := setAcc m.accounts tx.client account1,
             transactions := setTx m.transactions tx.tx disputed_tx1 }, none)

/-- Mirrors AccountManager::process_resolve.  Only the is_disputed flag of
the stored record is checked, never its kind.  Total is not recomputed. -/
def process_resolve (m : AccountManager) (tx : Transaction) : ProcResult :=
  match m.accounts tx.client with
  | none => (m, some .accountNotFound)
  | some account =>
    match m.transactions tx.tx with
    | none => (m, some .transactionNotFound)
    | some disputed_tx =>
      if disputed_tx.is_disputed = false then (m, some .notDisputed)
      else
        match disputed_tx.amount with
        | none => (m, some .amountRequired)
        | some amount =>
          let account1 := { account with
            available := account.available + amount,
            held := account.held - amount }
          let disputed_tx1 := { disputed_tx with is_disputed := false }
          ({ accounts := setAcc m.accounts tx.client account1,
             transactions := setTx m.transactions tx.tx disputed_tx1 }, none)

/-- Mirrors AccountManager::process_chargeback.  The stored record is not
written back (is_disputed stays as it was); total is recomputed as
available minus held (line 178) and the account is locked. -/
def process_chargeback (m : AccountManager) (tx : Transaction) : ProcResult :=
  match m.accounts tx.client with
  | none => (m, some .accountNotFound)
  | some account =>
    match m.transactions tx.tx with
    | none => (m, some .transactionNotFound)
    | some disputed_tx =>
      if disputed_tx.is_disputed = false then (m, some .notDisputed)
      else
        match disputed_tx.amount with
        | none => (m, some .amountRequired)
        | some amount =>
          let account1 := { account with held := account.held - amount }
          let account2 := { account1 with
            total := account1.available - account1.held,
            locked := true }
          ({ m with accounts := setAcc m.accounts tx.client account2 }, none)

/-- Mirrors AccountManager::process_tx: exact string dispatch on the type
tag (the Rust match on tx.r#type.as_str()). -/
def process_tx (m : AccountManager) (tx : Transaction) : ProcResult :=
  if tx.type = "deposit" then process_deposit m tx
  else if tx.type = "withdraw" then process_withdraw m tx
  else if tx.type = "dispute" then process_dispute m tx
  else if tx.type = "resolve" then process_resolve m tx
  else if tx.type = "chargeback" then process_chargeback m tx
  else (m, some .unknownTransactionType)

/-- Convenience constructor for a deposit input record, as built in the
repository tests. -/
def depRec (c t : Nat) (A : ℚ) : Transaction :=
  { type := "deposit", client := c, tx := t, amount := some A, is_disputed := false }

/-- Convenience constructor for a withdraw input record. -/
def wdrRec (c t : Nat) (A : ℚ) : Transaction :=
  { type := "withdraw", client := c, tx := t, amount := some A, is_disputed := false }

/-- Convenience constructor for a dispute input record. -/
def disRec (c t : Nat) : Transaction :=
  { type := "dispute", client := c, tx := t, amount := none, is_disputed := false }

/-- Convenience constructor for a resolve input record. -/
def resRec (c t : Nat) : Transaction :=
  { type := "resolve", client := c, tx := t, amount := none, is_disputed := false }

/-- Convenience constructor for a chargeback input record. -/
def chbRec (c t : Nat) : Transaction :=
  { type := "chargeback", client := c, tx := t, amount := none, is_disputed := false }

/-- Projection of the available field through an optional account. -/
def acctAvail : Option ClientAccount → Option ℚ
  | none => none
  | some a => some a.available

/-- Projection of the held field through an optional account. -/
def acctHeld : Option ClientAccount → Option ℚ
  | none => none
  | some a => some a.held

/-- Iterate process_dispute n times with the same dispute record, keeping
the state of each call (errors included, though in the uses below every
call succeeds). -/
def disputeN : Nat → AccountManager → Transaction → AccountManager
  | 0, m, _ => m
  | n + 1, m, dr => disputeN n (process_dispute m dr).1 dr

theorem setAcc_same (f : Nat → Option ClientAccount) (k : Nat) (v : ClientAccount) :
    setAcc f k v k = some v := by
  simp [setAcc]

theorem setAcc_ne (f : Nat → Option ClientAccount) (k k' : Nat) (v : ClientAccount)
    (h : k' ≠ k) : setAcc f k v k' = f k' := by
  simp [setAcc, h]

theorem setTx_same (f : Nat → Option Transaction) (k : Nat) (v : Transaction) :
    setTx f k v k = some v := by
  simp [setTx]

theorem setTx_ne (f : Nat → Option Transaction) (k k' : Nat) (v : Transaction)
    (h : k' ≠ k) : setTx f k v k' = f k' := by
  simp [setTx, h]

theorem process_deposit_fresh_new (m : AccountManager) (tx : Transaction) (a : ℚ)
    (ha : tx.amount = some a) (hf : m.transactions tx.tx = none)
    (hacc : m.accounts tx.client = none) :
    process_deposit m tx =
      ({ accounts := setAcc m.accounts tx.client
           ({ available := a, client := tx.client, held := 0, locked := false, total := a }),
         transactions := setTx m.transactions tx.tx tx }, none) := by
  simp [process_deposit, ha, hf, hacc]

theorem process_deposit_fresh_existing (m : AccountManager) (tx : Transaction) (a : ℚ)
    (acct : ClientAccount) (ha : tx.amount = some a) (hf : m.transactions tx.tx = none)
    (hacc : m.accounts tx.client = some acct) :
    process_deposit m tx =
      ({ accounts := setAcc m.accounts tx.client
           ({ acct with available := acct.available + a,
                        total := acct.available + a - acct.held }),
         transactions := setTx m.transactions tx.tx tx }, none) := by
  simp [process_deposit, ha, hf, hacc]

theorem process_withdraw_fresh_new (m : AccountManager) (tx : Transaction) (a : ℚ)
    (ha : tx.amount = some a) (hf : m.transactions tx.tx = none)
    (hacc : m.accounts tx.client = none) :
    process_withdraw m tx =
      ({ accounts := setAcc m.accounts tx.client
           ({ available := -a, client := tx.client, held := 0, locked := false, total := -a }),
         transactions := setTx m.transactions tx.tx tx }, none) := by
  simp [process_withdraw, ha, hf, hacc]

theorem process_withdraw_fresh_existing (m : AccountManager) (tx : Transaction) (a : ℚ)
    (acct : ClientAccount) (ha : tx.amount = some a) (hf : m.transactions tx.tx = none)
    (hacc : m.accounts tx.client = some acct) :
    process_withdraw m tx =
      ({ accounts := setAcc m.accounts tx.client
           ({ acct with available := acct.available - a,
                        total := acct.available - a - acct.held }),
         transactions := setTx m.transactions tx.tx tx }, none) := by
  simp [process_withdraw, ha, hf, hacc]

theorem process_dispute_ok (m : AccountManager) (dr : Transaction) (acct : ClientAccount)
    (d : Transaction) (a : ℚ) (h1 : m.accounts dr.client = some acct)
    (h2 : m.transactions dr.tx = some d) (h3 : d.type = "deposit")
    (h4 : d.amount = some a) :
    process_dispute m dr =
      ({ accounts := setAcc m.accounts dr.client
           ({ acct with available := acct.available - a, held := acct.held + a }),
         transactions := setTx m.transactions dr.tx ({ d with is_disputed := true }) },
       none) := by
  simp [process_dispute, h1, h2, h3, h4]

theorem process_resolve_ok (m : AccountManager) (dr : Transaction) (acct : ClientAccount)
    (d : Transaction) (a : ℚ) (h1 : m.accounts dr.client = some acct)
    (h2 : m.transactions dr.tx = some d) (h3 : d.is_disputed = true)
    (h4 : d.amount = some a) :
    process_resolve m dr =
      ({ accounts := setAcc m.accounts dr.client
           ({ acct with available := acct.available + a, held := acct.held - a }),
         transactions := setTx m.transactions dr.tx ({ d with is_disputed := false }) },
       none) := by
  simp [process_resolve, h1, h2, h3, h4]

theorem process_chargeback_ok (m : AccountManager) (dr : Transaction) (acct : ClientAccount)
    (d : Transaction) (a : ℚ) (h1 : m.accounts dr.client = some acct)
    (h2 : m.transactions dr.tx = some d) (h3 : d.is_disputed = true)
    (h4 : d.amount = some a) :
    process_chargeback m dr =
      ({ accounts := setAcc m.accounts dr.client
           ({ acct with held := acct.held - a,
                        total := acct.available - (acct.held - a), locked := true }),
         transactions := m.transactions },
       none) := by
  simp [process_chargeback, h1, h2, h3, h4]

theorem process_deposit_err (m : AccountManager) (tx : Transaction) (e : TxError)
    (h : (process_deposit m tx).2 = some e) : (process_deposit m tx).1 = m := by
  cases hA : tx.amount with
  | none => simp [process_deposit, hA]
  | some a =>
    cases hT : m.transactions tx.tx with
    | some t0 => simp [process_deposit, hA, hT]
    | none =>
      cases hC : m.accounts tx.client with
      | some acct => simp [process_deposit, hA, hT, hC] at h
      | none => simp [process_deposit, hA, hT, hC] at h

theorem process_withdraw_err (m : AccountManager) (tx : Transaction) (e : TxError)
    (h : (process_withdraw m tx).2 = some e) : (process_withdraw m tx).1 = m := by
  cases hA : tx.amount with
  | none => simp [process_withdraw, hA]
  | some a =>
    cases hT : m.transactions tx.tx with
    | some t0 => simp [process_withdraw, hA, hT]
    | none =>
      cases hC : m.accounts tx.client with
      | some acct => simp [process_withdraw, hA, hT, hC] at h
      | none => simp [process_withdraw, hA, hT, hC] at h

theorem process_dispute_err (m : AccountManager) (dr : Transaction) (e : TxError)
    (h : (process_dispute m dr).2 = some e) : (process_dispute m dr).1 = m := by
  cases hC : m.accounts dr.client with
  | none => simp [process_dispute, hC]
  | some acct =>
    cases hT : m.transactions dr.tx with
    | none => simp [process_dispute, hC, hT]
    | some d =>
      by_cases hk : d.type = "deposit"
      · cases hA : d.amount with
        | none => simp [process_dispute, hC, hT, hk, hA]
        | some a => simp [process_dispute, hC, hT, hk, hA] at h
      · simp [process_dispute, hC, hT, hk]

theorem process_resolve_err (m : AccountManager) (dr : Transaction) (e : TxError)
    (h : (process_resolve m dr).2 = some e) : (process_resolve m dr).1 = m := by
  cases hC : m.accounts dr.client with
  | none => simp [process_resolve, hC]
  | some acct =>
    cases hT : m.transactions dr.tx with
    | none => simp [process_resolve, hC, hT]
    | some d =>
      cases hd : d.is_disputed with
      | false => simp [process_resolve, hC, hT, hd]
      | true =>
        cases hA : d.amount with
        | none => simp [process_resolve, hC, hT, hd, hA]
        | some a => simp [process_resolve, hC, hT, hd, hA] at h

theorem process_chargeback_err (m : AccountManager) (dr : Transaction) (e : TxError)
    (h : (process_chargeback m dr).2 = some e) : (process_chargeback m dr).1 = m := by
  cases hC : m.accounts dr.client with
  | none => simp [process_chargeback, hC]
  | some acct =>
    cases hT : m.transactions dr.tx with
    | none => simp [process_chargeback, hC, hT]
    | some d =>
      cases hd : d.is_disputed with
      | false => simp [process_chargeback, hC, hT, hd]
      | true =>
        cases hA : d.amount with
        | none => simp [process_chargeback, hC, hT, hd, hA]
        | some a => simp [process_chargeback, hC, hT, hd, hA] at h

theorem process_deposit_not_unknown (m : AccountManager) (tx : Transaction) :
    (process_deposit m tx).2 ≠ some TxError.unknownTransactionType := by
  cases hA : tx.amount with
  | none => simp [process_deposit, hA]
  | some a =>
    cases hT : m.transactions tx.tx with
    | some t0 => simp [process_deposit, hA, hT]
    | none =>
      cases hC : m.accounts tx.client with
      | some acct => simp [process_deposit, hA, hT, hC]
      | none => simp [process_deposit, hA, hT, hC]

theorem process_withdraw_not_unknown (m : AccountManager) (tx : Transaction) :
    (process_withdraw m tx).2 ≠ some TxError.unknownTransactionType := by
  cases hA : tx.amount with
  | none => simp [process_withdraw, hA]
  | some a =>
    cases hT : m.transactions tx.tx with
    | some t0 => simp [process_withdraw, hA, hT]
    | none =>
      cases hC : m.accounts tx.client with
      | some acct => simp [process_withdraw, hA, hT, hC]
      | none => simp [process_withdraw, hA, hT, hC]

theorem process_dispute_not_unknown (m : AccountManager) (dr : Transaction) :
    (process_dispute m dr).2 ≠ some TxError.unknownTransactionType := by
  cases hC : m.accounts dr.client with
  | none => simp [process_dispute, hC]
  | some acct =>
    cases hT : m.transactions dr.tx with
    | none => simp [process_dispute, hC, hT]
    | some d =>
      by_cases hk : d.type = "deposit"
      · cases hA : d.amount with
        | none => simp [process_dispute, hC, hT, hk, hA]
        | some a => simp [process_dispute, hC, hT, hk, hA]
      · simp [process_dispute, hC, hT, hk]

theorem process_resolve_not_unknown (m : AccountManager) (dr : Transaction) :
    (process_resolve m dr).2 ≠ some TxError.unknownTransactionType := by
  cases hC : m.accounts dr.client with
  | none => simp [process_resolve, hC]
  | some acct =>
    cases hT : m.transactions dr.tx with
    | none => simp [process_resolve, hC, hT]
    | some d =>
      cases hd : d.is_disputed with
      | false => simp [process_resolve, hC, hT, hd]
      | true =>
        cases hA : d.amount with
        | none => simp [process_resolve, hC, hT, hd, hA]
        | some a => simp [process_resolve, hC, hT, hd, hA]

theorem process_chargeback_not_unknown (m : AccountManager) (dr : Transaction) :
    (process_chargeback m dr).2 ≠ some TxError.unknownTransactionType := by
  cases hC : m.accounts dr.client with
  | none => simp [process_chargeback, hC]
  | some acct =>
    cases hT : m.transactions dr.tx with
    | none => simp [process_chargeback, hC, hT]
    | some d =>
      cases hd : d.is_disputed with
      | false => simp [process_chargeback, hC, hT, hd]
      | true =>
        cases hA : d.amount with
        | none => simp [process_chargeback, hC, hT, hd, hA]
        | some a => simp [process_chargeback, hC, hT, hd, hA]

theorem process_dispute_missing (m : AccountManager) (dr : Transaction)
    (h : m.accounts dr.client = none ∨ m.transactions dr.tx = none) :
    (process_dispute m dr).2 ≠ none ∧ (process_dispute m dr).1 = m := by
  rcases h with h | h
  · simp [process_dispute, h]
  · cases hC : m.accounts dr.client with
    | none => simp [process_dispute, hC]
    | some acct => simp [process_dispute, hC, h]

theorem process_resolve_missing (m : AccountManager) (dr : Transaction)
    (h : m.accounts dr.client = none ∨ m.transactions dr.tx = none) :
    (process_resolve m dr).2 ≠ none ∧ (process_resolve m dr).1 = m := by
  rcases h with h | h
  · simp [process_resolve, h]
  · cases hC : m.accounts dr.client with
    | none => simp [process_resolve, hC]
    | some acct => simp [process_resolve, hC, h]

theorem process_chargeback_missing (m : AccountManager) (dr : Transaction)
    (h : m.accounts dr.client = none ∨ m.transactions dr.tx = none) :
    (process_chargeback m dr).2 ≠ none ∧ (process_chargeback m dr).1 = m := by
  rcases h with h | h
  · simp [process_chargeback, h]
  · cases hC : m.accounts dr.client with
    | none => simp [process_chargeback, hC]
    | some acct => simp [process_chargeback, hC, h]

/-- C4 counterexample: a record whose type tag is "Deposit" or "DEPOSIT" is
rejected with UnknownTransactionType instead of being dispatched to the
deposit handler, refuting case-insensitive type-tag matching. -/
theorem c4_counterexample :
    process_tx AccountManager.new
        { type := "Deposit", client := 1, tx := 1, amount := some 1, is_disputed := false } =
      (AccountManager.new, some TxError.unknownTransactionType) ∧
    process_tx AccountManager.new
        { type := "DEPOSIT", client := 1, tx := 1, amount := some 1, is_disputed := false } =
      (AccountManager.new, some TxError.unknownTransactionType) :=
  ⟨rfl, rfl⟩

/-- C4 (amended): type-tag matching in apply is exact and case-sensitive:
a record is rejected with UnknownTransactionType precisely when its tag is
not one of the five lowercase strings; any other spelling, including other
letter cases, is rejected. -/
theorem c4_dispatch_is_case_sensitive (m : AccountManager) (tx : Transaction) :
    (process_tx m tx).2 = some TxError.unknownTransactionType ↔
      (tx.type ≠ "deposit" ∧ tx.type ≠ "withdraw" ∧ tx.type ≠ "dispute" ∧
        tx.type ≠ "resolve" ∧ tx.type ≠ "chargeback") := by
  by_cases h1 : tx.type = "deposit"
  · simp [process_tx, h1, process_deposit_not_unknown]
  · by_cases h2 : tx.type = "withdraw"
    · simp [process_tx, h1, h2, process_withdraw_not_unknown]
    · by_cases h3 : tx.type = "dispute"
      · simp [process_tx, h1, h2, h3, process_dispute_not_unknown]
      · by_cases h4 : tx.type = "resolve"
        · simp [process_tx, h1, h2, h3, h4, process_resolve_not_unknown]
        · by_cases h5 : tx.type = "chargeback"
          · simp [process_tx, h1, h2, h3, h4, h5, process_chargeback_not_unknown]
          · simp [process_tx, h1, h2, h3, h4, h5]

/-- C5: whenever apply rejects a record with any error, the ledger state at
the return point is exactly the input state (no partial mutation, no new
account or history entry); and a dispute, resolve or chargeback whose
client has no account or whose tx id is not in history always rejects. -/
theorem c5_rejection_is_all_or_nothing (m : AccountManager) (tx : Transaction)
    (e : TxError) :
    ((process_tx m tx).2 = some e → (process_tx m tx).1 = m) ∧
    ((tx.type = "dispute" ∨ tx.type = "resolve" ∨ tx.type = "chargeback") →
      (m.accounts tx.client = none ∨ m.transactions tx.tx = none) →
      ((process_tx m tx).2 ≠ none ∧ (process_tx m tx).1 = m)) := by
  constructor
  · intro h
    by_cases h1 : tx.type = "deposit"
    · simp only [process_tx, h1, if_true] at h ⊢
      exact process_deposit_err m tx e h
    · by_cases h2 : tx.type = "withdraw"
      · simp only [process_tx, h1, h2, if_false, if_true] at h ⊢
        exact process_withdraw_err m tx e h
      · by_cases h3 : tx.type = "dispute"
        · simp only [process_tx, h1, h2, h3, if_false, if_true] at h ⊢
          exact process_dispute_err m tx e h
        · by_cases h4 : tx.type = "resolve"
          · simp only [process_tx, h1, h2, h3, h4, if_false, if_true] at h ⊢
            exact process_resolve_err m tx e h
          · by_cases h5 : tx.type = "chargeback"
            · simp only [process_tx, h1, h2, h3, h4, h5, if_false, if_true] at h ⊢
              exact process_chargeback_err m tx e h
            · simp [process_tx, h1, h2, h3, h4, h5]
  · intro hk hm
    rcases hk with hk | hk | hk
    · have hne1 : tx.type ≠ "deposit" := by simp [hk]
      have hne2 : tx.type ≠ "withdraw" := by simp [hk]
      simp only [process_tx, hne1, hne2, hk, if_false, if_true]
      exact process_dispute_missing m tx hm
    · have hne1 : tx.type ≠ "deposit" := by simp [hk]
      have hne2 : tx.type ≠ "withdraw" := by simp [hk]
      have hne3 : tx.type ≠ "dispute" := by simp [hk]
      simp only [process_tx, hne1, hne2, hne3, hk, if_false, if_true]
      exact process_resolve_missing m tx hm
    · have hne1 : tx.type ≠ "deposit" := by simp [hk]
      have hne2 : tx.type ≠ "withdraw" := by simp [hk]
      have hne3 : tx.type ≠ "dispute" := by simp [hk]
      have hne4 : tx.type ≠ "resolve" := by simp [hk]
      simp only [process_tx, hne1, hne2, hne3, hne4, hk, if_false, if_true]
      exact process_chargeback_missing m tx hm

/-- Witness for C5: a dispute against the empty ledger is rejected and
leaves the ledger untouched. -/
theorem c5_witness :
    (process_tx AccountManager.new (disRec 1 1)).1 = AccountManager.new ∧
    ((process_tx AccountManager.new (disRec 1 1)).2 ≠ none ∧
      (process_tx AccountManager.new (disRec 1 1)).1 = AccountManager.new) := by
  refine ⟨?_, ?_⟩
  · exact (c5_rejection_is_all_or_nothing AccountManager.new (disRec 1 1)
      TxError.accountNotFound).1 rfl
  · exact (c5_rejection_is_all_or_nothing AccountManager.new (disRec 1 1)
      TxError.accountNotFound).2 (Or.inl rfl) (Or.inl rfl)

/-- C6: a deposit or withdraw whose tx id is already in history is rejected
with DuplicateTransaction and the ledger state at the return point is
exactly the input state, so no account field changes. -/
theorem c6_duplicate_is_rejected_without_mutation (m : AccountManager)
    (tx : Transaction) (a : ℚ) (t0 : Transaction)
    (hk : tx.type = "deposit" ∨ tx.type = "withdraw") (ha : tx.amount = some a)
    (hdup : m.transactions tx.tx = some t0) :
    process_tx m tx = (m, some TxError.duplicateTransaction) := by
  rcases hk with hk | hk
  · simp [process_tx, hk, process_deposit, ha, hdup]
  · have hne1 : tx.type ≠ "deposit" := by simp [hk]
    simp [process_tx, hne1, hk, process_withdraw, ha, hdup]

/-- State with one deposit of 5 recorded under tx id 1, used to witness the
duplicate rejection. -/
def c6m : AccountManager := (process_tx AccountManager.new (depRec 1 1 5)).1

/-- Witness for C6: a second deposit reusing tx id 1 is rejected as a
duplicate and the state is returned unchanged. -/
theorem c6_witness :
    process_tx c6m (depRec 1 1 7) = (c6m, some TxError.duplicateTransaction) :=
  c6_duplicate_is_rejected_without_mutation c6m (depRec 1 1 7) 7 (depRec 1 1 5)
    (Or.inl rfl) rfl (by decide)

/-- C8: a withdraw with a fresh tx id for a client with no account succeeds
(there is no funds-sufficiency check) and creates the account with
available = -A, held = 0, total = -A. -/
theorem c8_withdraw_creates_negative_account (m : AccountManager)
    (tx : Transaction) (a : ℚ) (hk : tx.type = "withdraw")
    (ha : tx.amount = some a) (hf : m.transactions tx.tx = none)
    (hacc : m.accounts tx.client = none) :
    (process_tx m tx).2 = none ∧
    (process_tx m tx).1.accounts tx.client =
      some { available := -a, client := tx.client, held := 0,
             locked := false, total := -a } := by
  have hne1 : tx.type ≠ "deposit" := by simp [hk]
  simp [process_tx, hne1, hk, process_withdraw, ha, hf, hacc, setAcc]

/-- Witness for C8: withdrawing 5 from an unknown client on the empty
ledger succeeds and creates the account at -5. -/
theorem c8_witness :
    (process_tx AccountManager.new (wdrRec 1 1 5)).2 = none ∧
    (process_tx AccountManager.new (wdrRec 1 1 5)).1.accounts 1 =
      some { available := -5, client := 1, held := 0,
             locked := false, total := -5 } :=
  c8_withdraw_creates_negative_account AccountManager.new (wdrRec 1 1 5) 5
    rfl rfl rfl rfl

/-- State reaching the C1 failing input: deposit 5 for client 1 (tx 1),
dispute tx 1, then deposit 3 for client 1 (tx 2). -/
def c1state : AccountManager :=
  (process_tx (process_tx (process_tx AccountManager.new (depRec 1 1 5)).1
    (disRec 1 1)).1 (depRec 1 2 3)).1

/-- C1: after three successfully applied operations the account of client 1
has total = -2 while available + held = 3 + 5 = 8, because the source
recomputes total as available - held; the invariant total = available +
held fails on the code. -/
theorem c1_total_invariant_violated :
    (process_tx AccountManager.new (depRec 1 1 5)).2 = none ∧
    (process_tx (process_tx AccountManager.new (depRec 1 1 5)).1 (disRec 1 1)).2 = none ∧
    (process_tx (process_tx (process_tx AccountManager.new (depRec 1 1 5)).1
      (disRec 1 1)).1 (depRec 1 2 3)).2 = none ∧
    c1state.accounts 1 =
      some { available := 3, client := 1, held := 5, locked := false, total := -2 } ∧
    ¬ ((-2 : ℚ) = 3 + 5) := by
  refine ⟨?_, ?_, ?_, ?_, by norm_num⟩ <;>
    norm_num +decide [c1state, depRec, disRec, process_tx, process_deposit,
      process_dispute, setAcc, setTx, AccountManager.new]

/-- State after deposit A (client c, tx t), dispute t, chargeback t,
starting from the empty ledger. -/
def c2state (c t : Nat) (A : ℚ) : AccountManager :=
  (process_tx (process_tx (process_tx AccountManager.new (depRec c t A)).1
    (disRec c t)).1 (chbRec c t)).1

/-- C2 counterexample: after deposit, dispute and chargeback of tx 1, a
subsequent resolve and a second chargeback of the same tx id are NOT
rejected with NotDisputed: both succeed, because chargeback leaves the
stored is_disputed flag set. -/
theorem c2_counterexample :
    (process_tx (c2state 1 1 5) (resRec 1 1)).2 = none ∧
    (process_tx (c2state 1 1 5) (chbRec 1 1)).2 = none := by
  constructor <;>
    norm_num +decide [c2state, depRec, disRec, resRec, chbRec, process_tx,
      process_deposit, process_dispute, process_resolve, process_chargeback,
      setAcc, setTx, AccountManager.new]

/-- C2 (amended): deposit A, dispute, chargeback yields held reduced by A
(back to 0), locked = true, and the stored record still marked disputed;
consequently a subsequent resolve or second chargeback on the same tx id
SUCCEEDS rather than being rejected with NotDisputed. -/
theorem c2_chargeback_permanence (c t : Nat) (A : ℚ) :
    (process_tx AccountManager.new (depRec c t A)).2 = none ∧
    (process_tx (process_tx AccountManager.new (depRec c t A)).1 (disRec c t)).2 = none ∧
    (process_tx (process_tx (process_tx AccountManager.new (depRec c t A)).1
      (disRec c t)).1 (chbRec c t)).2 = none ∧
    (process_tx (process_tx AccountManager.new (depRec c t A)).1 (disRec c t)).1.accounts c =
      some { available := 0, client := c, held := A, locked := false, total := A } ∧
    (c2state c t A).accounts c =
      some { available := 0, client := c, held := 0, locked := true, total := 0 } ∧
    (c2state c t A).transactions t = some { depRec c t A with is_disputed := true } ∧
    (process_tx (c2state c t A) (resRec c t)).2 = none ∧
    (process_tx (c2state c t A) (chbRec c t)).2 = none := by
  refine ⟨?_, ?_, ?_, ?_, ?_, ?_, ?_, ?_⟩ <;>
    simp +decide [c2state, depRec, disRec, resRec, chbRec, process_tx,
      process_deposit, process_dispute, process_resolve, process_chargeback,
      setAcc, setTx, AccountManager.new]

/-- State with a deposit of 5 by client 1 (tx 1) and a deposit of 3 by
client 2 (tx 2). -/
def c3state : AccountManager :=
  (process_tx (process_tx AccountManager.new (depRec 1 1 5)).1 (depRec 2 2 3)).1

/-- C3 counterexample: a dispute record naming client 2 but referencing the
deposit owned by client 1 succeeds and shifts the deposit amount 5 on the
account of client 2; the account of client 1, the owner of the referenced
deposit, is untouched. -/
theorem c3_counterexample :
    (process_tx c3state (disRec 2 1)).2 = none ∧
    (process_tx c3state (disRec 2 1)).1.accounts 2 =
      some { available := -2, client := 2, held := 5, locked := false, total := 3 } ∧
    (process_tx c3state (disRec 2 1)).1.accounts 1 =
      some { available := 5, client := 1, held := 0, locked := false, total := 5 } := by
  refine ⟨?_, ?_, ?_⟩ <;>
    norm_num +decide [c3state, depRec, disRec, process_tx, process_deposit,
      process_dispute, setAcc, setTx, AccountManager.new]

/-- C3 (amended): when a dispute references a stored deposit with an
amount, the amount comes from the stored record, but the balance shift is
applied to the account keyed by the client field of the dispute record
itself; every other account, including that of the client owning the
referenced deposit when it differs, is unchanged. -/
theorem c3_dispute_shifts_on_record_client (m : AccountManager)
    (dr d : Transaction) (acct : ClientAccount) (a : ℚ) (c' : Nat)
    (h1 : m.accounts dr.client = some acct) (h2 : m.transactions dr.tx = some d)
    (h3 : d.type = "deposit") (h4 : d.amount = some a) (h5 : c' ≠ dr.client) :
    (process_dispute m dr).2 = none ∧
    (process_dispute m dr).1.accounts dr.client =
      some { acct with available := acct.available - a, held := acct.held + a } ∧
    (process_dispute m dr).1.accounts c' = m.accounts c' := by
  have h := process_dispute_ok m dr acct d a h1 h2 h3 h4
  rw [h]
  exact ⟨rfl, setAcc_same _ _ _, setAcc_ne _ _ _ _ h5⟩

/-- Witness for C3: in c3state, dispute by client 2 of tx 1 (owned by
client 1) shifts 5 on the account of client 2 and leaves the account of
client 1 exactly as it was. -/
theorem c3_witness :
    (process_dispute c3state (disRec 2 1)).2 = none ∧
    (process_dispute c3state (disRec 2 1)).1.accounts 2 =
      some { available := 3 - 5, client := 2, held := 0 + 5, locked := false, total := 3 } ∧
    (process_dispute c3state (disRec 2 1)).1.accounts 1 = c3state.accounts 1 :=
  c3_dispute_shifts_on_record_client c3state (disRec 2 1) (depRec 1 1 5)
    { available := 3, client := 2, held := 0, locked := false, total := 3 } 5 1
    (by decide) (by decide) rfl rfl (by decide)

/-- State after depositing A for client c under fresh tx id t. -/
def rtS1 (m : AccountManager) (c t : Nat) (A : ℚ) : AccountManager :=
  (process_tx m (depRec c t A)).1

/-- State after additionally disputing tx t. -/
def rtS2 (m : AccountManager) (c t : Nat) (A : ℚ) : AccountManager :=
  (process_tx (rtS1 m c t A) (disRec c t)).1

/-- State after additionally resolving tx t. -/
def rtS3 (m : AccountManager) (c t : Nat) (A : ℚ) : AccountManager :=
  (process_tx (rtS2 m c t A) (resRec c t)).1

/-- C7: from any starting state, depositing A under a fresh tx id, then
disputing it, then resolving it all succeed, and the final available and
held of the client are exactly the post-deposit, pre-dispute values
(rational arithmetic is exact, so there is no drift). -/
theorem c7_dispute_resolve_round_trip (m : AccountManager) (c t : Nat) (A : ℚ)
    (hfresh : m.transactions t = none) :
    (process_tx m (depRec c t A)).2 = none ∧
    (process_tx (rtS1 m c t A) (disRec c t)).2 = none ∧
    (process_tx (rtS2 m c t A) (resRec c t)).2 = none ∧
    (rtS1 m c t A).accounts c ≠ none ∧
    acctAvail ((rtS3 m c t A).accounts c) = acctAvail ((rtS1 m c t A).accounts c) ∧
    acctHeld ((rtS3 m c t A).accounts c) = acctHeld ((rtS1 m c t A).accounts c) := by
  cases hacc : m.accounts c with
  | none =>
    refine ⟨?_, ?_, ?_, ?_, ?_, ?_⟩ <;>
      simp +decide [rtS1, rtS2, rtS3, depRec, disRec, resRec, process_tx,
        process_deposit, process_dispute, process_resolve, setAcc, setTx,
        acctAvail, acctHeld, hfresh, hacc]
  | some acct0 =>
    refine ⟨?_, ?_, ?_, ?_, ?_, ?_⟩ <;>
      simp +decide [rtS1, rtS2, rtS3, depRec, disRec, resRec, process_tx,
        process_deposit, process_dispute, process_resolve, setAcc, setTx,
        acctAvail, acctHeld, hfresh, hacc]

/-- Witness for C7: deposit 5, dispute, resolve on the empty ledger for
client 1 and tx 1. -/
theorem c7_witness :
    (process_tx AccountManager.new (depRec 1 1 5)).2 = none ∧
    (process_tx (rtS1 AccountManager.new 1 1 5) (disRec 1 1)).2 = none ∧
    (process_tx (rtS2 AccountManager.new 1 1 5) (resRec 1 1)).2 = none ∧
    (rtS1 AccountManager.new 1 1 5).accounts 1 ≠ none ∧
    acctAvail ((rtS3 AccountManager.new 1 1 5).accounts 1) =
      acctAvail ((rtS1 AccountManager.new 1 1 5).accounts 1) ∧
    acctHeld ((rtS3 AccountManager.new 1 1 5).accounts 1) =
      acctHeld ((rtS1 AccountManager.new 1 1 5).accounts 1) :=
  c7_dispute_resolve_round_trip AccountManager.new 1 1 5 rfl

theorem disputeN_spec (dr : Transaction) (a : ℚ) :
    ∀ (n : Nat) (m : AccountManager) (acct : ClientAccount) (d : Transaction),
      m.accounts dr.client = some acct → m.transactions dr.tx = some d →
      d.type = "deposit" → d.amount = some a →
      ∃ d1 : Transaction,
        (disputeN n m dr).accounts dr.client =
          some ⟨acct.available - (n : ℚ) * a, acct.client,
                acct.held + (n : ℚ) * a, acct.locked, acct.total⟩ ∧
        (disputeN n m dr).transactions dr.tx = some d1 ∧
        d1.type = "deposit" ∧ d1.amount = some a := by
  intro n
  induction n with
  | zero =>
    intro m acct d h1 h2 h3 h4
    refine ⟨d, ?_, h2, h3, h4⟩
    simpa [disputeN] using h1
  | succ k ih =>
    intro m acct d h1 h2 h3 h4
    have hstep := process_dispute_ok m dr acct d a h1 h2 h3 h4
    have hacc1 : (process_dispute m dr).1.accounts dr.client =
        some ⟨acct.available - a, acct.client, acct.held + a,
              acct.locked, acct.total⟩ := by
      rw [hstep]; exact setAcc_same _ _ _
    have htx1 : (process_dispute m dr).1.transactions dr.tx =
        some { d with is_disputed := true } := by
      rw [hstep]; exact setTx_same _ _ _
    obtain ⟨d1, hA, hT, hk1, ha1⟩ :=
      ih (process_dispute m dr).1
        ⟨acct.available - a, acct.client, acct.held + a, acct.locked, acct.total⟩
        { d with is_disputed := true } hacc1 htx1 (by simpa using h3)
        (by simpa using h4)
    refine ⟨d1, ?_, hT, hk1, ha1⟩
    have hunfold : disputeN (k + 1) m dr = disputeN k (process_dispute m dr).1 dr := rfl
    have e1 : acct.available - a - (k : ℚ) * a =
        acct.available - ((k + 1 : Nat) : ℚ) * a := by
      push_cast
      ring
    have e2 : acct.held + a + (k : ℚ) * a =
        acct.held + ((k + 1 : Nat) : ℚ) * a := by
      push_cast
      ring
    rw [hunfold, hA]
    dsimp only
    rw [e1, e2]

/-- C9: process_dispute does not look at the is_disputed flag of the
stored record: even when the referenced deposit is already marked
disputed, another dispute succeeds and shifts the amount again, and n
iterated disputes shift n times the amount from available into held. -/
theorem c9_dispute_never_checks_disputed_flag (m : AccountManager)
    (dr d : Transaction) (acct : ClientAccount) (a : ℚ) (n : Nat)
    (h1 : m.accounts dr.client = some acct) (h2 : m.transactions dr.tx = some d)
    (h3 : d.type = "deposit") (h4 : d.amount = some a)
    (_h5 : d.is_disputed = true) :
    (process_dispute m dr).2 = none ∧
    (process_dispute m dr).1.accounts dr.client =
      some { acct with available := acct.available - a, held := acct.held + a } ∧
    acctAvail ((disputeN n m dr).accounts dr.client) =
      some (acct.available - (n : ℚ) * a) ∧
    acctHeld ((disputeN n m dr).accounts dr.client) =
      some (acct.held + (n : ℚ) * a) := by
  have hstep := process_dispute_ok m dr acct d a h1 h2 h3 h4
  obtain ⟨d1, hA, hT, hk1, ha1⟩ := disputeN_spec dr a n m acct d h1 h2 h3 h4
  refine ⟨by rw [hstep], by rw [hstep]; exact setAcc_same _ _ _, ?_, ?_⟩
  · rw [hA]; rfl
  · rw [hA]; rfl

/-- State after deposit 5 (client 1, tx 1) followed by a dispute of tx 1,
so the stored deposit record is already marked disputed. -/
def c9m : AccountManager :=
  (process_tx (process_tx AccountManager.new (depRec 1 1 5)).1 (disRec 1 1)).1

/-- Witness for C9: from c9m, where tx 1 is already disputed, a further
dispute succeeds and two iterated disputes shift 2 * 5 into held. -/
theorem c9_witness :
    (process_dispute c9m (disRec 1 1)).2 = none ∧
    (process_dispute c9m (disRec 1 1)).1.accounts 1 =
      some { available := 0 - 5, client := 1, held := 5 + 5,
             locked := false, total := 5 } ∧
    acctAvail ((disputeN 2 c9m (disRec 1 1)).accounts 1) =
      some (0 - ((2 : Nat) : ℚ) * 5) ∧
    acctHeld ((disputeN 2 c9m (disRec 1 1)).accounts 1) =
      some (5 + ((2 : Nat) : ℚ) * 5) :=
  c9_dispute_never_checks_disputed_flag c9m (disRec 1 1)
    { type := "deposit", client := 1, tx := 1, amount := some 5, is_disputed := true }
    { available := 0, client := 1, held := 5, locked := false, total := 5 } 5 2
    (by simp +decide [c9m, depRec, disRec, process_tx, process_deposit,
      process_dispute, setAcc, setTx, AccountManager.new])
    (by decide) rfl rfl rfl

/-- C10: process_withdraw (and process_deposit) stores the incoming record
verbatim, is_disputed flag included; process_resolve and process_chargeback
check only the is_disputed flag of the stored record, never its kind, so a
stored record of any kind with the flag set and an amount can be resolved
(crediting available) or charged back (debiting held). -/
theorem c10_resolve_chargeback_ignore_kind (m : AccountManager)
    (w dr d : Transaction) (a b : ℚ) (acct : ClientAccount)
    (hw1 : w.type = "withdraw") (hw2 : w.amount = some a)
    (hw3 : m.transactions w.tx = none)
    (h1 : m.accounts dr.client = some acct) (h2 : m.transactions dr.tx = some d)
    (h3 : d.is_disputed = true) (h4 : d.amount = some b) :
    (process_tx m w).1.transactions w.tx = some w ∧
    process_resolve m dr =
      ({ accounts := setAcc m.accounts dr.client
           ({ acct with available := acct.available + b, held := acct.held - b }),
         transactions := setTx m.transactions dr.tx ({ d with is_disputed := false }) },
       none) ∧
    process_chargeback m dr =
      ({ accounts := setAcc m.accounts dr.client
           ({ acct with held := acct.held - b,
                        total := acct.available - (acct.held - b), locked := true }),
         transactions := m.transactions },
       none) := by
  refine ⟨?_, process_resolve_ok m dr acct d b h1 h2 h3 h4,
    process_chargeback_ok m dr acct d b h1 h2 h3 h4⟩
  have hne1 : w.type ≠ "deposit" := by simp [hw1]
  cases hacc : m.accounts w.client with
  | none =>
    simp +decide [process_tx, hne1, hw1, process_withdraw, hw2, hw3, hacc, setTx]
  | some acct0 =>
    simp +decide [process_tx, hne1, hw1, process_withdraw, hw2, hw3, hacc, setTx]

/-- State after processing a withdraw input record that arrived with its
is_disputed flag already set (tx 1, client 1, amount 4). -/
def c10m : AccountManager :=
  (process_tx AccountManager.new
    { type := "withdraw", client := 1, tx := 1, amount := some 4,
      is_disputed := true }).1

/-- Witness for C10: in c10m the stored tx 1 is a withdraw with
is_disputed = true; a fresh withdraw is stored verbatim, and resolve and
chargeback of tx 1 both succeed despite the record not being a deposit. -/
theorem c10_witness :
    (process_tx c10m (wdrRec 1 2 3)).1.transactions 2 = some (wdrRec 1 2 3) ∧
    process_resolve c10m (resRec 1 1) =
      ({ accounts := setAcc c10m.accounts 1
           ({ available := -4 + 4, client := 1, held := 0 - 4,
              locked := false, total := -4 }),
         transactions := setTx c10m.transactions 1
           ({ type := "withdraw", client := 1, tx := 1, amount := some 4,
              is_disputed := false }) },
       none) ∧
    process_chargeback c10m (resRec 1 1) =
      ({ accounts := setAcc c10m.accounts 1
           ({ available := -4, client := 1, held := 0 - 4,
              total := -4 - (0 - 4), locked := true }),
         transactions := c10m.transactions },
       none) :=
  c10_resolve_chargeback_ignore_kind c10m (wdrRec 1 2 3) (resRec 1 1)
    { type := "withdraw", client := 1, tx := 1, amount := some 4,
      is_disputed := true }
    3 4 { available := -4, client := 1, held := 0, locked := false, total := -4 }
    rfl rfl (by decide) (by decide) (by decide) rfl rfl
